import Mathlib

/-!
Shallow embedding of `mcp-weather-bq/server.py`: unit converters, the
station/observation data model, the four tool operations
(`resolve_city`, `range_weather_summary`, `yearly_max_temp`,
`daily_weather_series`), the parameterized queries they issue, and the
SQL semantics of those queries over an in-memory table.

Floats are modelled as rationals; SQL `NULL` as `Option.none`;
a BigQuery `DATE` as a day ordinal (`Nat`).
-/

namespace WeatherBQ

/-! ## Unit converters (server.py lines 27-42) -/

/-- Converter `f_to_c`: Fahrenheit to Celsius, passing `None` through. -/
def f_to_c : Option ℚ → Option ℚ
  | none => none
  | some v => some ((v - 32) * 5 / 9)

/-- Converter `inches_to_mm`: inches to millimeters, passing `None` through. -/
def inches_to_mm : Option ℚ → Option ℚ
  | none => none
  | some v => some (v * 25.4)

/-- Converter `knots_to_kmh`: knots to km/h, passing `None` through. -/
def knots_to_kmh : Option ℚ → Option ℚ
  | none => none
  | some v => some (v * 1.852)

/-! ## Data model: the two external tables -/

/-- One row of the `stations` table. -/
structure Station where
  stn : String
  wban : String
  name : String
  country : String
  lat : ℚ
  lon : ℚ
deriving Repr, DecidableEq

/-- One row of the `daily_observations` (gsod) table.  Every float
column is nullable. -/
structure Obs where
  stn : String
  wban : String
  date : Nat
  temp : Option ℚ
  max : Option ℚ
  min : Option ℚ
  prcp : Option ℚ
  wdsp : Option ℚ
deriving Repr, DecidableEq

/-! ## Row filter shared by `range_weather_summary` and
`daily_weather_series` (the SQL `WHERE` clause of lines 119-122 and
232-235): station match, date between bounds, and `temp != 9999.9`
under SQL three-valued logic (a `NULL` temp row is excluded too). -/

/-- Boolean value of the `WHERE` clause on one row. -/
def qualCond (stn wban : String) (d1 d2 : Nat) (r : Obs) : Bool :=
  (r.stn == stn) && (r.wban == wban) &&
  decide (d1 ≤ r.date) && decide (r.date ≤ d2) &&
  (match r.temp with
   | some t => decide (t ≠ (9999.9 : ℚ))
   | none => false)

/-- Rows admitted by the shared `WHERE` clause. -/
def qualRows (db : List Obs) (stn wban : String) (d1 d2 : Nat) : List Obs :=
  db.filter (qualCond stn wban d1 d2)

/-! ## SQL aggregate semantics -/

/-- SQL `MIN` over the non-null values of a column: `NULL` on the
empty set. -/
def sqlMin (xs : List ℚ) : Option ℚ :=
  xs.foldl (fun acc x => some (match acc with | none => x | some m => Min.min m x)) none

/-- SQL `MAX` over the non-null values of a column. -/
def sqlMax (xs : List ℚ) : Option ℚ :=
  xs.foldl (fun acc x => some (match acc with | none => x | some m => Max.max m x)) none

/-- SQL `AVG` over the non-null values of a column. -/
def sqlAvg (xs : List ℚ) : Option ℚ :=
  match xs with
  | [] => none
  | _ => some (xs.sum / (xs.length : ℚ))

/-- Per-row value of `IF(prcp < 99.99, prcp, 0)` (line 116).  A `NULL`
`prcp` makes the SQL condition `NULL`, so `IF` yields the else branch
`0`. -/
def prcpTerm (r : Obs) : ℚ :=
  match r.prcp with
  | some p => if p < (99.99 : ℚ) then p else 0
  | none => 0

/-- Per-row value of `IF(wdsp < 999.9, wdsp, NULL)` (line 117). -/
def wdspTerm (r : Obs) : Option ℚ :=
  match r.wdsp with
  | some w => if w < (999.9 : ℚ) then some w else none
  | none => none

/-- The single result row of the aggregate query of
`range_weather_summary` (lines 111-123). -/
structure AggRow where
  temp_min_f : Option ℚ
  temp_max_f : Option ℚ
  temp_mean_f : Option ℚ
  prcp_sum_in : Option ℚ
  wind_mean_knots : Option ℚ
deriving Repr, DecidableEq

/-- Executing the aggregate query.  An aggregate `SELECT` without
`GROUP BY` returns exactly one row, with `NULL` aggregates when no row
qualifies (`SUM` and `AVG` of the empty set are `NULL`). -/
def runRangeQuery (db : List Obs) (stn wban : String) (d1 d2 : Nat) : List AggRow :=
  let rows := qualRows db stn wban d1 d2
  [{ temp_min_f := sqlMin (rows.filterMap (fun r => r.temp)),
     temp_max_f := sqlMax (rows.filterMap (fun r => r.temp)),
     temp_mean_f := sqlAvg (rows.filterMap (fun r => r.temp)),
     prcp_sum_in := if rows.isEmpty then none else some (rows.map prcpTerm).sum,
     wind_mean_knots := sqlAvg (rows.filterMap wdspTerm) }]

/-- The dict returned by `range_weather_summary` (lines 137-159). -/
inductive RangeResult
  | notFound (reason : String)
  | found (stn wban : String) (start_date end_date : Nat)
      (temp_min_c temp_max_c temp_mean_c : Option ℚ)
      (rainfall_total_mm : Option ℚ) (wind_mean_kmh : Option ℚ)
deriving Repr, DecidableEq

/-- The `found` flag of the returned dict. -/
def RangeResult.isFound : RangeResult → Bool
  | .notFound _ => false
  | .found _ _ _ _ _ _ _ _ _ => true

/-- The `rainfall.total_mm` field of the returned dict (`none` both for
a not-found result and for a null field). -/
def RangeResult.rainTotal : RangeResult → Option ℚ
  | .notFound _ => none
  | .found _ _ _ _ _ _ _ t _ => t

/-- The `wind.mean_kmh` field of the returned dict. -/
def RangeResult.windMean : RangeResult → Option ℚ
  | .notFound _ => none
  | .found _ _ _ _ _ _ _ _ w => w

/-- Operation `range_weather_summary` (lines 95-159): run the aggregate query,
return not-found on an empty row list, else convert each aggregate. -/
def range_weather_summary (db : List Obs) (stn wban : String) (d1 d2 : Nat) :
    RangeResult :=
  match runRangeQuery db stn wban d1 d2 with
  | [] => .notFound "No data in that range"
  | row :: _ =>
    .found stn wban d1 d2
      (f_to_c row.temp_min_f) (f_to_c row.temp_max_f) (f_to_c row.temp_mean_f)
      (inches_to_mm row.prcp_sum_in) (knots_to_kmh row.wind_mean_knots)

/-! ## `resolve_city` (lines 45-92) -/

/-- SQL `UPPER` of a string, as a character list (ASCII letter map). -/
def upperChars (s : String) : List Char := s.data.map Char.toUpper

/-- Bytewise lexicographic order on character lists, modelling the SQL
`ORDER BY` collation on station names. -/
def lexLe : List Char → List Char → Bool
  | [], _ => true
  | _ :: _, [] => false
  | a :: as, b :: bs => if a < b then true else if b < a then false else lexLe as bs

/-- The `ORDER BY name` comparison between two station rows. -/
def nameLe (a b : Station) : Prop := lexLe a.name.data b.name.data = true

instance : DecidableRel nameLe :=
  fun a b => instDecidableEqBool (lexLe a.name.data b.name.data) true

instance : IsTotal Station nameLe := by
  constructor
  intro a b
  show lexLe a.name.data b.name.data = true ∨ lexLe b.name.data a.name.data = true
  generalize a.name.data = as
  generalize b.name.data = bs
  induction as generalizing bs with
  | nil => left; rfl
  | cons x xs ih =>
    cases bs with
    | nil => right; rfl
    | cons y ys =>
      rcases lt_trichotomy x y with h | h | h
      · left; simp [lexLe, h]
      · subst h
        rcases ih ys with h2 | h2
        · left; simp [lexLe, lt_irrefl, h2]
        · right; simp [lexLe, lt_irrefl, h2]
      · right; simp [lexLe, h]

instance : IsTrans Station nameLe := by
  constructor
  intro a b c
  show lexLe a.name.data b.name.data = true → lexLe b.name.data c.name.data = true →
    lexLe a.name.data c.name.data = true
  generalize a.name.data = as
  generalize b.name.data = bs
  generalize c.name.data = cs
  induction as generalizing bs cs with
  | nil => intro _ _; rfl
  | cons x xs ih =>
    intro h1 h2
    cases bs with
    | nil => simp [lexLe] at h1
    | cons y ys =>
      cases cs with
      | nil => simp [lexLe] at h2
      | cons z zs =>
        by_cases hxy : x < y
        · by_cases hyz : y < z
          · simp [lexLe, lt_trans hxy hyz]
          · by_cases hzy : z < y
            · simp [lexLe, hyz, hzy] at h2
            · have hyz2 : y = z := le_antisymm (not_lt.mp hzy) (not_lt.mp hyz)
              subst hyz2
              simp [lexLe, hxy]
        · by_cases hyx : y < x
          · simp [lexLe, hxy, hyx] at h1
          · have hxy2 : x = y := le_antisymm (not_lt.mp hyx) (not_lt.mp hxy)
            subst hxy2
            simp [lexLe, lt_irrefl] at h1
            by_cases hxz : x < z
            · simp [lexLe, hxz]
            · by_cases hzx : z < x
              · simp [lexLe, hxz, hzx] at h2
              · have hxz2 : x = z := le_antisymm (not_lt.mp hzx) (not_lt.mp hxz)
                subst hxz2
                simp [lexLe, lt_irrefl] at h2 ⊢
                exact ih ys zs h1 h2

/-- The `WHERE` clause of the station lookup (lines 69-70):
`UPPER(name) LIKE CONCAT` of percent, `UPPER(@city)`, percent — i.e.
the uppercased city is a substring of the uppercased name — plus
`country = @country` only when `country_code` is truthy (Python
`if country_code:` is false for both `None` and the empty string). -/
def stationMatches (city : String) (cc : Option String) (st : Station) : Bool :=
  decide (upperChars city <:+: upperChars st.name) &&
  (match cc with
   | none => true
   | some c => if c = "" then true else st.country == c)

/-- The dict returned by `resolve_city` (lines 80-92). -/
inductive ResolveResult
  | notFound (reason : String)
  | found (st : Station)
deriving Repr, DecidableEq

/-- Operation `resolve_city`: filter the station table, sort ascending by name
(`ORDER BY name`, a stable sort), take the first row (`LIMIT 1`),
not-found on an empty result. -/
def resolve_city (db : List Station) (city : String) (cc : Option String) :
    ResolveResult :=
  match List.insertionSort nameLe (db.filter (stationMatches city cc)) with
  | [] => .notFound "No station for that city"
  | st :: _ => .found st

/-! ## `daily_weather_series` (lines 206-274) -/

/-- One element of the returned `data` list.  A Python dict key can be
absent (`none`), or present with a possibly-`None` value
(`some (some v)` / `some none`), and the distinction is observable. -/
structure SeriesItem where
  date : Nat
  temp_mean_c : Option (Option ℚ)
  temp_max_c : Option (Option ℚ)
  temp_min_c : Option (Option ℚ)
  rain_mm : Option (Option ℚ)
  wind_kmh : Option (Option ℚ)
deriving Repr, DecidableEq

/-- Line 260 guard: `row["prcp"] is not None and row["prcp"] < 99.99`. -/
def prcpValid (r : Obs) : Bool :=
  match r.prcp with
  | some p => decide (p < (99.99 : ℚ))
  | none => false

/-- Line 262 guard: `row["wdsp"] is not None and row["wdsp"] < 999.9`. -/
def wdspValid (r : Obs) : Bool :=
  match r.wdsp with
  | some w => decide (w < (999.9 : ℚ))
  | none => false

/-- Lines 253-263: build one series entry from a row, keyed on which
metric names occur in the requested list.  The `max`/`min` guards test
only `!= 9999.9`, so a `None` max/min passes and the field is emitted
with a null value. -/
def buildItem (metrics : List String) (r : Obs) : SeriesItem :=
  { date := r.date
    temp_mean_c :=
      if metrics.contains "temp_mean_c" then some (f_to_c r.temp) else none
    temp_max_c :=
      if metrics.contains "temp_max_c" && decide (r.max ≠ some (9999.9 : ℚ)) then
        some (f_to_c r.max) else none
    temp_min_c :=
      if metrics.contains "temp_min_c" && decide (r.min ≠ some (9999.9 : ℚ)) then
        some (f_to_c r.min) else none
    rain_mm :=
      if metrics.contains "rain_mm" && prcpValid r then
        some (inches_to_mm r.prcp) else none
    wind_kmh :=
      if metrics.contains "wind_kmh" && wdspValid r then
        some (knots_to_kmh r.wdsp) else none }

/-- The `ORDER BY date` comparison between two observation rows. -/
def dateLe (a b : Obs) : Prop := a.date ≤ b.date

instance : DecidableRel dateLe := fun a b => Nat.decLe a.date b.date

instance : IsTotal Obs dateLe := ⟨fun a b => Nat.le_total a.date b.date⟩

instance : IsTrans Obs dateLe := ⟨fun _ _ _ => Nat.le_trans⟩

/-- The row query of `daily_weather_series` (lines 223-237): the shared
`WHERE` clause, then `ORDER BY date` (a stable sort). -/
def runSeriesQuery (db : List Obs) (stn wban : String) (d1 d2 : Nat) : List Obs :=
  List.insertionSort dateLe (qualRows db stn wban d1 d2)

/-- The dict returned by `daily_weather_series` (lines 267-274). -/
structure SeriesResult where
  stn : String
  wban : String
  start_date : Nat
  end_date : Nat
  metrics : List String
  data : List SeriesItem
deriving Repr, DecidableEq

/-- Operation `daily_weather_series`: default the metric list when `None` or
empty (`if not metrics:`), run the row query, map `buildItem`. -/
def daily_weather_series (db : List Obs) (stn wban : String) (d1 d2 : Nat)
    (metrics : Option (List String)) : SeriesResult :=
  let ms := match metrics with
    | none => ["temp_mean_c"]
    | some l => if l.isEmpty then ["temp_mean_c"] else l
  { stn := stn, wban := wban, start_date := d1, end_date := d2, metrics := ms,
    data := (runSeriesQuery db stn wban d1 d2).map (buildItem ms) }

/-! ## Query construction (what each tool sends to the dataset
service): query text plus typed bind parameters.  The texts are the
source f-strings with the module-constant table names substituted;
caller values appear only in the parameter list. -/

/-- A bind-parameter value (`ScalarQueryParameter` payload). -/
inductive ParamValue
  | str (s : String)
  | int (i : Int)
deriving Repr, DecidableEq

/-- One `ScalarQueryParameter`: name, declared type, value. -/
structure QueryParam where
  name : String
  ptype : String
  value : ParamValue
deriving Repr, DecidableEq

/-- A query as handed to the dataset execution service. -/
structure Query where
  text : String
  params : List QueryParam
deriving Repr, DecidableEq

/-- Module constant `DATASET_TABLE` (line 23). -/
def DATASET_TABLE : String := "bigquery-public-data.noaa_gsod.gsod*"

/-- Module constant `STATIONS_TABLE` (line 24). -/
def STATIONS_TABLE : String := "bigquery-public-data.noaa_gsod.stations"

/-- Python truthiness of the optional `country_code` argument:
`if country_code:` is false for `None` and for the empty string. -/
def ccTruthy : Option String → Bool
  | none => false
  | some c => c != ""

/-- The station-lookup query (lines 52-73): the `country` filter
fragment and the `country` parameter are appended only when
`country_code` is truthy. -/
def resolve_city_query (city : String) (cc : Option String) : Query :=
  let country_filter : String :=
    if ccTruthy cc then "AND country = @country" else ""
  let base : List QueryParam := [⟨"city", "STRING", .str city⟩]
  { text := "SELECT stn, wban, name, country, lat, lon FROM `" ++ STATIONS_TABLE ++
      "` WHERE UPPER(name) LIKE CONCAT(\x27%\x27, UPPER(@city), \x27%\x27) " ++
      country_filter ++ " ORDER BY name LIMIT 1"
    params :=
      match cc with
      | none => base
      | some c => if c = "" then base else base ++ [⟨"country", "STRING", .str c⟩] }

/-- The aggregate query of `range_weather_summary` (lines 111-134). -/
def range_summary_query (stn wban start_date end_date : String) : Query :=
  { text := "SELECT MIN(temp) AS temp_min_f, MAX(temp) AS temp_max_f, " ++
      "AVG(temp) AS temp_mean_f, SUM(IF(prcp < 99.99, prcp, 0)) AS prcp_sum_in, " ++
      "AVG(IF(wdsp < 999.9, wdsp, NULL)) AS wind_mean_knots FROM `" ++ DATASET_TABLE ++
      "` WHERE stn = @stn AND wban = @wban AND date BETWEEN @start_date " ++
      "AND @end_date AND temp != 9999.9"
    params := [⟨"stn", "STRING", .str stn⟩, ⟨"wban", "STRING", .str wban⟩,
      ⟨"start_date", "DATE", .str start_date⟩, ⟨"end_date", "DATE", .str end_date⟩] }

/-- The query of `yearly_max_temp` (lines 168-189). -/
def yearly_max_temp_query (stn wban : String) (year : Int) : Query :=
  { text := "SELECT date, max AS max_temp_f FROM `" ++ DATASET_TABLE ++
      "` WHERE stn = @stn AND wban = @wban AND EXTRACT(YEAR FROM date) = @year " ++
      "AND max != 9999.9 ORDER BY max_temp_f DESC LIMIT 1"
    params := [⟨"stn", "STRING", .str stn⟩, ⟨"wban", "STRING", .str wban⟩,
      ⟨"year", "INT64", .int year⟩] }

/-- The row query of `daily_weather_series` (lines 223-247); it does
not depend on the metric list. -/
def daily_series_query (stn wban start_date end_date : String) : Query :=
  { text := "SELECT date, temp, max, min, prcp, wdsp FROM `" ++ DATASET_TABLE ++
      "` WHERE stn = @stn AND wban = @wban AND date BETWEEN @start_date " ++
      "AND @end_date AND temp != 9999.9 ORDER BY date"
    params := [⟨"stn", "STRING", .str stn⟩, ⟨"wban", "STRING", .str wban⟩,
      ⟨"start_date", "DATE", .str start_date⟩, ⟨"end_date", "DATE", .str end_date⟩] }

/-- Queries issued by one call to `resolve_city`: exactly one,
unconditionally — the function body has no validation branch. -/
def resolve_city_queries (city : String) (cc : Option String) : List Query :=
  [resolve_city_query city cc]

/-- Queries issued by one call to `range_weather_summary`: exactly one,
unconditionally, whatever the date strings contain. -/
def range_summary_queries (stn wban start_date end_date : String) : List Query :=
  [range_summary_query stn wban start_date end_date]

/-- Queries issued by one call to `yearly_max_temp`. -/
def yearly_max_temp_queries (stn wban : String) (year : Int) : List Query :=
  [yearly_max_temp_query stn wban year]

/-- Queries issued by one call to `daily_weather_series`: exactly one,
unconditionally, whatever the date strings or metric names contain. -/
def daily_series_queries (stn wban start_date end_date : String)
    (_metrics : Option (List String)) : List Query :=
  [daily_series_query stn wban start_date end_date]

/-! ## Input-validity predicates (the checks the spec calls for; the
source performs none of them) -/

/-- Digit value of an ASCII digit character. -/
def digitVal (c : Char) : Nat := c.toNat - 48

/-- A well-formed `YYYY-MM-DD` date string: ten characters, digits and
hyphens in place, month in 1..12, day in 1..31.  Any string failing
this is malformed. -/
def validDate (s : String) : Bool :=
  match s.data with
  | [y1, y2, y3, y4, h1, m1, m2, h2, d1, d2] =>
    y1.isDigit && y2.isDigit && y3.isDigit && y4.isDigit &&
    (h1 == '-') && (h2 == '-') &&
    m1.isDigit && m2.isDigit && d1.isDigit && d2.isDigit &&
    (let m := 10 * digitVal m1 + digitVal m2
     let d := 10 * digitVal d1 + digitVal d2
     decide (1 ≤ m) && decide (m ≤ 12) && decide (1 ≤ d) && decide (d ≤ 31))
  | _ => false

/-- The fixed metric enumeration (docstring, line 217). -/
def METRICS : List String :=
  ["temp_mean_c", "temp_max_c", "temp_min_c", "rain_mm", "wind_kmh"]

/-- A known metric name. -/
def validMetric (m : String) : Bool := METRICS.contains m

/-! ## Module-evaluation name resolution (server.py top level).
Python evaluates each annotation expression when the `def` statement
executes at import time; a name that resolves neither to a module
binding nor to a builtin raises `NameError` there. -/

/-- Names bound at module top level before the `def` of
`daily_weather_series` executes: the imports of lines 1-6 and the
assignments and defs of lines 11-203.  The `typing` import (line 6)
brings in only `Optional`. -/
def moduleBindings : List String :=
  ["os", "json", "bigquery", "service_account", "FastMCP", "Optional",
   "mcp", "KEY_PATH", "f", "info", "creds", "bq_client",
   "DATASET_TABLE", "STATIONS_TABLE",
   "f_to_c", "inches_to_mm", "knots_to_kmh",
   "resolve_city", "range_weather_summary", "yearly_max_temp"]

/-- Python builtins referenced by the type hints of the module. -/
def pythonBuiltins : List String := ["str", "int", "float", "dict", "list", "open"]

/-- The names the signature of `daily_weather_series` (lines 207-213)
evaluates, in evaluation order: `str` for the four string parameters,
then `Optional` and `List` inside `Optional[List[str]]`, then the
return annotation `dict`. -/
def seriesSignatureNames : List String := ["str", "Optional", "List", "dict"]

/-- The first name in the signature that resolves to nothing — the
`NameError` the module raises while being imported (`none` would mean
the module imports cleanly). -/
def importNameError : Option String :=
  seriesSignatureNames.find?
    (fun n => !(moduleBindings.contains n || pythonBuiltins.contains n))

/-! ## Theorems -/

/-- C1: the aggregate query always returns exactly one row, so over a
range with zero qualifying observation rows `range_weather_summary`
does NOT return `found:false` — it returns `found:true` with every
aggregate field null.  The `if not rows` guard of line 137 is dead
code for an aggregate `SELECT` without `GROUP BY`; the spec describes
the intended behaviour, the code a slip. -/
theorem range_summary_zero_rows_found_true :
    range_weather_summary [] "037720" "99999" 1 3 =
      .found "037720" "99999" 1 3 none none none none none
  ∧ (range_weather_summary [] "037720" "99999" 1 3).isFound = true :=
  ⟨rfl, rfl⟩

/-- C2 counterexample: one qualifying row whose precipitation reading
is exactly the 99.99 sentinel.  `SUM(IF(prcp < 99.99, prcp, 0))` turns
the sentinel into 0, so `rainfall.total_mm` comes out `0`, not
missing, contradicting the claimed invariant. -/
theorem rain_total_sentinel_cex :
    (range_weather_summary [⟨"S", "W", 1, some 60, none, none, some 99.99, none⟩]
      "S" "W" 1 1).rainTotal = some 0 := by
  norm_num [range_weather_summary, runRangeQuery, qualRows, qualCond, prcpTerm,
    inches_to_mm, RangeResult.rainTotal, List.filter_cons, sqlAvg, sqlMin, sqlMax]

/-- C2 amended: a sentinel-flagged or null precipitation reading
contributes `0` to the rainfall total rather than its own magnitude,
so when at least one row qualifies and the precipitation of every
qualifying row is null or at/above the 99.99 threshold,
`rainfall.total_mm` is `0` — not missing. -/
theorem rain_total_all_sentinel_is_zero :
    ∀ (db : List Obs) (stn wban : String) (d1 d2 : Nat),
      qualRows db stn wban d1 d2 ≠ [] →
      (∀ r ∈ qualRows db stn wban d1 d2, ∀ p, r.prcp = some p → ¬ p < (99.99 : ℚ)) →
      (range_weather_summary db stn wban d1 d2).rainTotal = some 0 := by
  intro db stn wban d1 d2 hne hall
  have hsum : ((qualRows db stn wban d1 d2).map prcpTerm).sum = 0 := by
    apply List.sum_eq_zero
    intro x hx
    rcases List.mem_map.mp hx with ⟨r, hr, rfl⟩
    unfold prcpTerm
    rcases hp : r.prcp with _ | p
    · rfl
    · simp [hall r hr p hp]
  have hem : (qualRows db stn wban d1 d2).isEmpty = false := by
    rcases h : qualRows db stn wban d1 d2 with _ | ⟨a, l⟩
    · exact absurd h hne
    · rfl
  simp [range_weather_summary, runRangeQuery, RangeResult.rainTotal, hem, hsum,
    inches_to_mm]

/-- C2 witness: a concrete database satisfying both hypotheses of
`rain_total_all_sentinel_is_zero` (one qualifying row, precipitation
100 ≥ 99.99). -/
theorem rain_total_all_sentinel_is_zero_witness :
    (range_weather_summary [⟨"S", "W", 1, some 60, none, none, some 100, none⟩]
      "S" "W" 1 1).rainTotal = some 0 := by
  have hq : qualRows [⟨"S", "W", 1, some 60, none, none, some 100, none⟩] "S" "W" 1 1
      = [⟨"S", "W", 1, some 60, none, none, some 100, none⟩] := by
    norm_num [qualRows, qualCond, List.filter_cons]
  apply rain_total_all_sentinel_is_zero
  · rw [hq]; exact List.cons_ne_nil _ _
  · intro r hr p hp
    rw [hq] at hr
    rw [List.mem_singleton.mp hr] at hp
    have : p = 100 := by injection hp with h; exact h.symm
    subst this
    norm_num

/-- C4: the three unit converters implement exactly the claimed
formulas on non-null inputs, pass null through, and hit the anchor
values 32 ↦ 0, 212 ↦ 100, 1 in ↦ 25.4 mm, 1 kn ↦ 1.852 km/h. -/
theorem unit_converters_spec :
    (∀ v : ℚ, f_to_c (some v) = some ((v - 32) * 5 / 9))
  ∧ (∀ v : ℚ, inches_to_mm (some v) = some (v * 25.4))
  ∧ (∀ v : ℚ, knots_to_kmh (some v) = some (v * 1.852))
  ∧ f_to_c none = none ∧ inches_to_mm none = none ∧ knots_to_kmh none = none
  ∧ f_to_c (some 32) = some 0 ∧ f_to_c (some 212) = some 100
  ∧ inches_to_mm (some 1) = some 25.4 ∧ knots_to_kmh (some 1) = some 1.852 := by
  refine ⟨fun v => rfl, fun v => rfl, fun v => rfl, rfl, rfl, rfl, ?_, ?_, ?_, ?_⟩ <;>
    norm_num [f_to_c, inches_to_mm, knots_to_kmh]

/-- Helper for C5: prefiltering a row on `temp ≠ some 9999.9` is
absorbed by the `WHERE` condition of the query itself. -/
theorem qualCond_and_sentinel (stn wban : String) (d1 d2 : Nat) (r : Obs) :
    (qualCond stn wban d1 d2 r && decide (r.temp ≠ some (9999.9 : ℚ))) =
      qualCond stn wban d1 d2 r := by
  rcases h : r.temp with _ | t
  · simp [qualCond, h]
  · by_cases ht : t = (9999.9 : ℚ)
    · simp [qualCond, h, ht]
    · simp [qualCond, h, ht]

/-- C5: a row whose mean temperature is the 9999.9 sentinel is excluded
from every aggregate of `range_weather_summary` — deleting all such
rows from the database first changes nothing, even when their
precipitation or wind readings are valid. -/
theorem sentinel_temp_rows_excluded :
    ∀ (db : List Obs) (stn wban : String) (d1 d2 : Nat),
      range_weather_summary db stn wban d1 d2 =
        range_weather_summary
          (db.filter (fun r => decide (r.temp ≠ some (9999.9 : ℚ)))) stn wban d1 d2 := by
  intro db stn wban d1 d2
  have h : qualRows (db.filter (fun r => decide (r.temp ≠ some (9999.9 : ℚ))))
      stn wban d1 d2 = qualRows db stn wban d1 d2 := by
    unfold qualRows
    rw [List.filter_filter]
    exact List.filter_congr (fun r _ => qualCond_and_sentinel stn wban d1 d2 r)
  simp only [range_weather_summary, runRangeQuery, h]

/-- C3 counterexample: no input validation exists.  A malformed date
string, an unknown metric name, and an inverted date range each still
cause exactly one query to be issued to the dataset service, with the
bad values passed along as bind parameters. -/
theorem no_validation_before_query_cex :
    validDate "not-a-date" = false
  ∧ (range_summary_queries "037720" "99999" "not-a-date" "2020-01-01").length = 1
  ∧ validMetric "bogus" = false
  ∧ (daily_series_queries "037720" "99999" "2020-01-01" "2020-01-02"
      (some ["bogus"])).length = 1
  ∧ validDate "2020-02-01" = true ∧ validDate "2020-01-05" = true
  ∧ lexLe "2020-02-01".data "2020-01-05".data = false
  ∧ (range_summary_queries "037720" "99999" "2020-02-01" "2020-01-05").length = 1 := by
  refine ⟨?_, rfl, ?_, rfl, ?_, ?_, ?_, rfl⟩ <;> decide

/-- C3 amended: the operations perform no validation at all — every
call, whatever its date strings, year or metric names, issues exactly
one query to the dataset service; malformed values are not rejected
locally but surface only from the external call. -/
theorem every_call_issues_one_query :
    ∀ (stn wban sd ed city : String) (cc : Option String) (y : Int)
      (metrics : Option (List String)),
      (resolve_city_queries city cc).length = 1
    ∧ (range_summary_queries stn wban sd ed).length = 1
    ∧ (yearly_max_temp_queries stn wban y).length = 1
    ∧ (daily_series_queries stn wban sd ed metrics).length = 1 := by
  intros
  exact ⟨rfl, rfl, rfl, rfl⟩

/-- C9 counterexample: two `resolve_city` calls that differ only in the
caller-supplied `country_code` value (empty string versus `"FR"`)
submit different query texts, because the `AND country = @country`
fragment is spliced in only when `country_code` is truthy. -/
theorem query_text_country_presence_cex :
    (resolve_city_query "PARIS" (some "")).text ≠
      (resolve_city_query "PARIS" (some "FR")).text := by
  decide

/-- C9 amended: caller values never appear in any query text — the
three observation queries have call-independent text, and the
`resolve_city` text depends only on whether `country_code` is truthy
(non-null and non-empty), never on the value itself; values travel
only in the typed bind-parameter list. -/
theorem query_text_constant_modulo_country_presence :
    (∀ s1 w1 a1 b1 s2 w2 a2 b2 : String,
       (range_summary_query s1 w1 a1 b1).text = (range_summary_query s2 w2 a2 b2).text)
  ∧ (∀ (s1 w1 s2 w2 : String) (y1 y2 : Int),
       (yearly_max_temp_query s1 w1 y1).text = (yearly_max_temp_query s2 w2 y2).text)
  ∧ (∀ s1 w1 a1 b1 s2 w2 a2 b2 : String,
       (daily_series_query s1 w1 a1 b1).text = (daily_series_query s2 w2 a2 b2).text)
  ∧ (∀ (c1 c2 : String) (cc1 cc2 : Option String),
       ccTruthy cc1 = ccTruthy cc2 →
       (resolve_city_query c1 cc1).text = (resolve_city_query c2 cc2).text) := by
  refine ⟨fun _ _ _ _ _ _ _ _ => rfl, fun _ _ _ _ _ _ => rfl,
    fun _ _ _ _ _ _ _ _ => rfl, fun c1 c2 cc1 cc2 h => ?_⟩
  simp only [resolve_city_query, h]

/-- C9 witness: two calls with different cities and different (both
truthy) country codes produce the same query text. -/
theorem query_text_constant_witness :
    (resolve_city_query "NAIROBI" (some "KE")).text =
      (resolve_city_query "LAGOS" (some "NG")).text :=
  query_text_constant_modulo_country_presence.2.2.2 "NAIROBI" "LAGOS"
    (some "KE") (some "NG") rfl

/-- C10: evaluating the signature of `daily_weather_series` at import
time hits the name `List`, which neither the module bindings (the
`typing` import brings in only `Optional`) nor the builtins provide —
the module import raises `NameError` on `List` before any operation
can be invoked. -/
theorem module_import_name_error :
    importNameError = some "List" ∧ moduleBindings.contains "List" = false := by
  decide

/-- Helper for C6: `lexLe` is reflexive. -/
theorem lexLe_refl (as : List Char) : lexLe as as = true := by
  induction as with
  | nil => rfl
  | cons x xs ih => simp [lexLe, lt_irrefl, ih]

/-- C6: `resolve_city` is case-insensitive in the city argument,
returns not-found exactly when no station row matches (a normal
outcome carrying a reason string), and otherwise returns a matching
station — name containing the uppercased city text, country equal to a
truthy `country_code` — whose name is lexicographically least among
all matches. -/
theorem resolve_city_spec :
    (∀ (db : List Station) (c1 c2 : String) (cc : Option String),
       upperChars c1 = upperChars c2 →
       resolve_city db c1 cc = resolve_city db c2 cc)
  ∧ (∀ (db : List Station) (city : String) (cc : Option String),
       resolve_city db city cc = .notFound "No station for that city" ↔
         db.filter (stationMatches city cc) = [])
  ∧ (∀ (db : List Station) (city : String) (cc : Option String) (st : Station),
       resolve_city db city cc = .found st →
       st ∈ db.filter (stationMatches city cc)
     ∧ (∀ st2 ∈ db.filter (stationMatches city cc),
          lexLe st.name.data st2.name.data = true)
     ∧ (∀ c, cc = some c → c ≠ "" → st.country = c)
     ∧ upperChars city <:+: upperChars st.name) := by
  refine ⟨?_, ?_, ?_⟩
  · intro db c1 c2 cc h
    have hm : stationMatches c1 cc = stationMatches c2 cc := by
      funext st
      simp [stationMatches, h]
    rw [resolve_city, resolve_city, hm]
  · intro db city cc
    have hperm := List.perm_insertionSort nameLe (db.filter (stationMatches city cc))
    constructor
    · intro h
      rcases hs : List.insertionSort nameLe (db.filter (stationMatches city cc)) with
        _ | ⟨a, l⟩
      · rw [hs] at hperm
        exact (hperm.symm.eq_nil)
      · rw [resolve_city, hs] at h
        cases h
    · intro h
      rw [resolve_city, h]
      rfl
  · intro db city cc st h
    rcases hs : List.insertionSort nameLe (db.filter (stationMatches city cc)) with
      _ | ⟨a, l⟩
    · rw [resolve_city, hs] at h
      cases h
    · rw [resolve_city, hs] at h
      injection h with h
      subst h
      have hperm := List.perm_insertionSort nameLe (db.filter (stationMatches city cc))
      rw [hs] at hperm
      have hsorted := List.sorted_insertionSort nameLe (db.filter (stationMatches city cc))
      rw [hs] at hsorted
      have hmem : a ∈ db.filter (stationMatches city cc) :=
        hperm.mem_iff.mp (List.mem_cons_self a l)
      have hmatch : stationMatches city cc a = true := (List.mem_filter.mp hmem).2
      refine ⟨hmem, ?_, ?_, ?_⟩
      · intro st2 hst2
        rcases List.mem_cons.mp (hperm.mem_iff.mpr hst2) with h2 | h2
        · rw [h2]
          exact lexLe_refl _
        · exact List.rel_of_sorted_cons hsorted st2 h2
      · intro c hc hcne
        subst hc
        simp [stationMatches, hcne] at hmatch
        exact hmatch.2
      · simp [stationMatches] at hmatch
        exact hmatch.1

/-- Station directory used by the C6 witness. -/
def demoStations : List Station :=
  [⟨"1", "10", "NAIROBI", "KE", 0, 0⟩,
   ⟨"2", "20", "LONDON CITY", "UK", 1, 1⟩,
   ⟨"3", "30", "LONDON", "UK", 2, 2⟩]

/-- C6 witness: on a concrete directory, `resolve_city` treats
`"lonDON"` and `"LONDON"` alike, the returned station `LONDON` is a
match, its name precedes the other match `LONDON CITY`, and its
uppercased name contains the uppercased query. -/
theorem resolve_city_spec_witness :
    resolve_city demoStations "lonDON" none = resolve_city demoStations "LONDON" none
  ∧ (⟨"3", "30", "LONDON", "UK", 2, 2⟩ : Station) ∈
      demoStations.filter (stationMatches "london" none)
  ∧ lexLe (Station.name ⟨"3", "30", "LONDON", "UK", 2, 2⟩).data
      (Station.name ⟨"2", "20", "LONDON CITY", "UK", 1, 1⟩).data = true
  ∧ upperChars "london" <:+: upperChars (Station.name ⟨"3", "30", "LONDON", "UK", 2, 2⟩) := by
  have h3 := resolve_city_spec.2.2 demoStations "london" none
    ⟨"3", "30", "LONDON", "UK", 2, 2⟩ rfl
  exact ⟨resolve_city_spec.1 demoStations "lonDON" "LONDON" none (by decide),
    h3.1, h3.2.1 ⟨"2", "20", "LONDON CITY", "UK", 1, 1⟩ (by decide), h3.2.2.2⟩

/-- C7: with `metrics=["rain_mm"]` every series entry carries, besides
the date, at most a `rain_mm` field — all temperature and wind fields
are absent — and a present `rain_mm` comes from a row whose
precipitation is non-null and strictly below the 99.99 sentinel
threshold, converted to millimeters. -/
theorem rain_only_series_fields :
    ∀ (db : List Obs) (stn wban : String) (d1 d2 : Nat) (item : SeriesItem),
      item ∈ (daily_weather_series db stn wban d1 d2 (some ["rain_mm"])).data →
      item.temp_mean_c = none ∧ item.temp_max_c = none ∧ item.temp_min_c = none
      ∧ item.wind_kmh = none
      ∧ ∀ x, item.rain_mm = some x →
          ∃ r ∈ runSeriesQuery db stn wban d1 d2,
            item.date = r.date ∧ ∃ p, r.prcp = some p ∧ p < (99.99 : ℚ)
            ∧ x = some (p * 25.4) := by
  intro db stn wban d1 d2 item hmem
  have hdata : (daily_weather_series db stn wban d1 d2 (some ["rain_mm"])).data
      = (runSeriesQuery db stn wban d1 d2).map (buildItem ["rain_mm"]) := rfl
  rw [hdata] at hmem
  rcases List.mem_map.mp hmem with ⟨r, hr, rfl⟩
  refine ⟨rfl, rfl, rfl, rfl, ?_⟩
  intro x hx
  rcases hp : r.prcp with _ | p
  · rw [show (buildItem ["rain_mm"] r).rain_mm = none from by
      simp [buildItem, prcpValid, hp]] at hx
    cases hx
  · by_cases hlt : p < (99.99 : ℚ)
    · refine ⟨r, hr, rfl, p, hp, hlt, ?_⟩
      rw [show (buildItem ["rain_mm"] r).rain_mm = some (some (p * 25.4)) from by
        simp [buildItem, prcpValid, hp, hlt, inches_to_mm]] at hx
      injection hx with hx
      exact hx.symm
    · rw [show (buildItem ["rain_mm"] r).rain_mm = none from by
        simp [buildItem, prcpValid, hp, hlt]] at hx
      cases hx

/-- C7 witness: a concrete one-row database with a valid precipitation
reading; the emitted entry has no temperature or wind field. -/
theorem rain_only_series_fields_witness :
    (buildItem ["rain_mm"] ⟨"S", "W", 5, some 60, none, none, some 2, none⟩).temp_mean_c = none
  ∧ (buildItem ["rain_mm"] ⟨"S", "W", 5, some 60, none, none, some 2, none⟩).temp_max_c = none
  ∧ (buildItem ["rain_mm"] ⟨"S", "W", 5, some 60, none, none, some 2, none⟩).temp_min_c = none
  ∧ (buildItem ["rain_mm"] ⟨"S", "W", 5, some 60, none, none, some 2, none⟩).wind_kmh = none := by
  have hq : qualRows [⟨"S", "W", 5, some 60, none, none, some 2, none⟩] "S" "W" 1 9
      = [⟨"S", "W", 5, some 60, none, none, some 2, none⟩] := by
    norm_num [qualRows, qualCond, List.filter_cons]
  have hmem : buildItem ["rain_mm"] ⟨"S", "W", 5, some 60, none, none, some 2, none⟩
      ∈ (daily_weather_series [⟨"S", "W", 5, some 60, none, none, some 2, none⟩]
          "S" "W" 1 9 (some ["rain_mm"])).data := by
    simp [daily_weather_series, runSeriesQuery, hq, List.insertionSort]
  have h := rain_only_series_fields _ "S" "W" 1 9 _ hmem
  exact ⟨h.1, h.2.1, h.2.2.1, h.2.2.2.1⟩

/-- C8: whenever the qualifying rows carry pairwise distinct dates (the
observation table is keyed by station and date), the `data` list of
`daily_weather_series` is sorted in strictly ascending date order —
hence duplicate-free. -/
theorem daily_series_sorted_strict :
    ∀ (db : List Obs) (stn wban : String) (d1 d2 : Nat)
      (metrics : Option (List String)),
      List.Pairwise (fun a b : Obs => a.date ≠ b.date) (qualRows db stn wban d1 d2) →
      List.Pairwise (fun a b : Nat => a < b)
        ((daily_weather_series db stn wban d1 d2 metrics).data.map SeriesItem.date) := by
  intro db stn wban d1 d2 metrics hnd
  have hq := List.perm_insertionSort dateLe (qualRows db stn wban d1 d2)
  have hsorted := List.sorted_insertionSort dateLe (qualRows db stn wban d1 d2)
  have hnd2 : List.Pairwise (fun a b : Obs => a.date ≠ b.date)
      (List.insertionSort dateLe (qualRows db stn wban d1 d2)) :=
    (List.Perm.pairwise_iff (fun h => Ne.symm h) hq).mpr hnd
  have hlt : List.Pairwise (fun a b : Obs => a.date < b.date)
      (List.insertionSort dateLe (qualRows db stn wban d1 d2)) :=
    (hsorted.and hnd2).imp (fun h => lt_of_le_of_ne h.1 h.2)
  have hmap : (daily_weather_series db stn wban d1 d2 metrics).data.map SeriesItem.date
      = (List.insertionSort dateLe (qualRows db stn wban d1 d2)).map (fun r => r.date) := by
    simp [daily_weather_series, runSeriesQuery, List.map_map, Function.comp, buildItem]
  rw [hmap, List.pairwise_map]
  exact hlt

/-- C8 witness: a two-row database arriving date-unsorted, with
distinct dates; the emitted series is strictly increasing. -/
theorem daily_series_sorted_strict_witness :
    List.Pairwise (fun a b : Nat => a < b)
      ((daily_weather_series
          [⟨"S", "W", 2, some 50, none, none, none, none⟩,
           ⟨"S", "W", 1, some 40, none, none, none, none⟩]
          "S" "W" 1 2 none).data.map SeriesItem.date) := by
  apply daily_series_sorted_strict
  have hq : qualRows
      [⟨"S", "W", 2, some 50, none, none, none, none⟩,
       ⟨"S", "W", 1, some 40, none, none, none, none⟩] "S" "W" 1 2
      = [⟨"S", "W", 2, some 50, none, none, none, none⟩,
         ⟨"S", "W", 1, some 40, none, none, none, none⟩] := by
    norm_num [qualRows, qualCond, List.filter_cons]
  rw [hq]
  norm_num

end WeatherBQ
